import Mathlib

/-!
Verification of the metric-computation layer of `sims_maf` against its
natural-language specification.

The embedding models the two algorithmic source files:
  * `python/lsst/sims/maf/metrics/cadenceMetrics.py` (rationals stand in for
    the IEEE doubles of the source; all inputs of interest are exactly
    representable),
  * `python/lsst/sims/operations/maf/metrics/astroPrecMetric.py` (real numbers,
    since the algorithm uses `10**x` and square roots).

Conventions:
  * a numpy structured array (`dataSlice`) is a `List` of visit records;
  * `np.nan` results and raised exceptions (`TypeError` from indexing a tuple
    by a string key, `ZeroDivisionError`) are modelled as `none` of an
    `Option`-valued function;
  * `np.searchsorted` is embedded as the count of elements below the probe,
    which agrees with numpy's binary search exactly when the searched array is
    sorted ascending; every call site below searches an array that is sorted
    at that point of the algorithm (times after the in-place time sort, night
    values when the night column is monotone in time, as the data model
    requires).
-/

namespace SimsMaf

/-! ## numpy primitives -/

/-- `np.sort` on a 1-d float array (ascending). -/
def npSortQ (l : List ℚ) : List ℚ := l.insertionSort (· ≤ ·)

/-- In-place `arr.sort(order=key)` of a structured array: ascending by `key`. -/
def npSortBy {α : Type} (key : α → ℚ) (l : List α) : List α :=
  l.insertionSort (fun a b => key a ≤ key b)

/-- `np.diff`: consecutive differences `a[i+1] - a[i]`. -/
def npDiff (l : List ℚ) : List ℚ := List.zipWith (· - ·) l.tail l

/-- `np.diff` on an integer (night) column. -/
def npDiffZ (l : List ℤ) : List ℤ := List.zipWith (· - ·) l.tail l

/-- `arr.min()` of a nonempty float array (junk value 0 on empty, unreached). -/
def npMin (l : List ℚ) : ℚ := l.foldl min (l.headD 0)

/-- `arr.max()` of a nonempty float array (junk value 0 on empty, unreached). -/
def npMax (l : List ℚ) : ℚ := l.foldl max (l.headD 0)

/-- `np.median` of a 1-d float array; `none` models the `nan` that numpy
produces (with a warning) on an empty input. -/
def npMedian (l : List ℚ) : Option ℚ :=
  let s := npSortQ l
  let n := l.length
  if n = 0 then none
  else if n % 2 = 1 then some (s.getD (n / 2) 0)
  else some ((s.getD (n / 2 - 1) 0 + s.getD (n / 2) 0) / 2)

/-- `np.searchsorted(a, v, side='left')` for `a` sorted ascending:
the number of entries strictly below `v`. -/
def ssLeftQ (l : List ℚ) (v : ℚ) : ℕ := l.countP (fun x => decide (x < v))

/-- `np.searchsorted(a, v, side='right')` for `a` sorted ascending:
the number of entries at or below `v`. -/
def ssRightQ (l : List ℚ) (v : ℚ) : ℕ := l.countP (fun x => decide (x ≤ v))

/-- `np.searchsorted(a, v, side='left')` on an integer column. -/
def ssLeftZ (l : List ℤ) (v : ℤ) : ℕ := l.countP (fun x => decide (x < v))

/-- `np.searchsorted(a, v, side='right')` on an integer column. -/
def ssRightZ (l : List ℤ) (v : ℤ) : ℕ := l.countP (fun x => decide (x ≤ v))

/-- `np.unique` of an integer column: sorted distinct values. -/
def npUniqueZ (l : List ℤ) : List ℤ := (l.insertionSort (· ≤ ·)).dedup

/-! ## SupernovaMetric (`cadenceMetrics.py`, lines 8-188) -/

/-- The fixed filter alphabet `['u','g','r','i','z','y']`. -/
inductive SNFilter where
  | u | g | r | i | z | y
deriving DecidableEq

/-- All six filters, in the order of `self.filterNames` before the cut. -/
def allFilters : List SNFilter := [.u, .g, .r, .i, .z, .y]

/-- Rough filter effective wavelengths `[375., 476., 621., 754., 870., 980.]`
(line 83, before division by `1 + redshift`). -/
def filterWaveBase : SNFilter → ℚ
  | .u => 375 | .g => 476 | .r => 621 | .i => 754 | .z => 870 | .y => 980

/-- One row of the slice consumed by `SupernovaMetric.run`:
columns `expMJD`, `filter`, `fiveSigmaDepth`. -/
structure SNVisit where
  expMJD : ℚ
  filt : SNFilter
  fiveSigmaDepth : ℚ
deriving DecidableEq

/-- The constructor parameters of `SupernovaMetric` (lines 55-85), in source
order; `badval` is stored by the base class (default `-666`, line 60). -/
structure SNParams where
  redshift : ℚ
  Tmin : ℚ
  Tmax : ℚ
  Nbetween : ℤ
  Nfilt : ℤ
  Tless : ℚ
  Nless : ℤ
  Tmore : ℚ
  Nmore : ℤ
  peakGap : ℚ
  singleDepthLimit : ℚ
  resolution : ℚ
  uniqueBlocks : Bool
  badval : ℚ

/-- Lines 83-84: `filterNames` surviving the rest-frame wavelength cut
`300 < filterWave/(1+redshift) < 900`. -/
def snValidFilters (p : SNParams) : List SNFilter :=
  allFilters.filter fun f =>
    decide (300 < filterWaveBase f / (1 + p.redshift)) &&
    decide (filterWaveBase f / (1 + p.redshift) < 900)

/-- Result of `SupernovaMetric.run`: either the bare 3-tuple
`(badval, badval, badval)` of line 113, or the dict
`{'result': …, 'maxGap': …, 'Nobs': …}` of line 170. -/
inductive SNOut where
  | tup : ℚ → ℚ → ℚ → SNOut
  | dict : ℕ → List ℚ → List ℕ → SNOut
deriving DecidableEq

/-- The mutable state of the loop over surviving candidate epochs
(lines 130-167).  `i` is the `enumerate` counter, `rightSide` the variable
`right_side` (initially `-1`), `accepted` records the observation index range
`[left[i], right[i])` of each accepted sequence (implicit in the source: the
window `dataSlice[left[i]:right[i]]` of each sequence that increments
`result`). -/
structure SNLoopState where
  i : ℕ
  rightSide : ℤ
  result : ℕ
  maxGap : List ℚ
  nobs : List ℕ
  accepted : List (ℕ × ℕ)
deriving DecidableEq

/-- Lines 119-129: the candidate grid `finetime = np.arange(0, ceil(max time),
resolution)` with its window bounds `left`/`right` from `np.searchsorted`,
restricted to candidates with `right - left > Nbetween`.  Each surviving
candidate is the triple `(finetime[index], left[i], right[i])`. -/
def snCands (p : SNParams) (time : List ℚ) : List (ℚ × ℕ × ℕ) :=
  let count : ℤ := ⌈((⌈npMax time⌉ : ℚ)) / p.resolution⌉
  let finetime := (List.range count.toNat).map (fun i => (i : ℚ) * p.resolution)
  (finetime.map fun f =>
      (f, ssLeftQ time f, ssRightQ time (f + p.Tmax - p.Tmin))).filter
    fun c => (c.2.2 : ℤ) - (c.2.1 : ℤ) > p.Nbetween

/-- The body of the loop of lines 136-167 for one surviving candidate
`(f, l, r)`.  The nested `if`s of the source have no effects on their `else`
paths, so they are flattened into one conjunction guarded exactly as the
source guards it. -/
def snStep (p : SNParams) (ds : List SNVisit) (time : List ℚ)
    (st : SNLoopState) (cand : ℚ × ℕ × ℕ) : SNLoopState :=
  let f := cand.1
  let l := cand.2.1
  let r := cand.2.2
  if (st.i : ℤ) ≤ st.rightSide then
    ⟨st.i + 1, st.rightSide, st.result, st.maxGap, st.nobs, st.accepted⟩
  else
    -- visits = dataSlice[left[i]:right[i]]; t = time[left[i]:right[i]]
    let visits := (ds.drop l).take (r - l)
    -- t = t - finetime[index] + self.Tmin
    let t := ((time.drop l).take (r - l)).map (fun x => x - f + p.Tmin)
    let ufilters := (visits.map SNVisit.filt).dedup
    -- nearPeak = np.where((t > Tless) & (t < Tmore)); kept as (visit, t) pairs
    let nearPeak := (visits.zip t).filter
      (fun vt => decide (p.Tless < vt.2) && decide (vt.2 < p.Tmore))
    let ufiltersNP := (nearPeak.map (fun vt => vt.1.filt)).dedup
    -- for f in ufilters: count those whose deepest near-peak visit beats the limit
    let filtersBrightEnough := ufiltersNP.countP fun fl =>
      decide (npMax ((nearPeak.filter (fun vt => decide (vt.1.filt = fl))).map
        (fun vt => vt.1.fiveSigmaDepth)) > p.singleDepthLimit)
    -- gaps over near-peak times, or the scalar peakGap + 1e6 when < 2 of them
    let gapsMax :=
      if 2 ≤ nearPeak.length then npMax (npDiff (nearPeak.map (fun vt => vt.2)))
      else p.peakGap + 1000000
    if (t.countP (fun x => decide (x < p.Tless)) : ℤ) > p.Nless ∧
       (t.countP (fun x => decide (x > p.Tmore)) : ℤ) > p.Nmore ∧
       (t.length : ℤ) > p.Nbetween ∧
       (ufilters.length : ℤ) ≥ p.Nfilt ∧
       (filtersBrightEnough : ℤ) ≥ p.Nfilt ∧
       gapsMax < p.peakGap then
      ⟨st.i + 1, if p.uniqueBlocks then (r : ℤ) else st.rightSide,
       st.result + 1, st.maxGap ++ [gapsMax], st.nobs ++ [t.length],
       st.accepted ++ [(l, r)]⟩
    else
      ⟨st.i + 1, st.rightSide, st.result, st.maxGap, st.nobs, st.accepted⟩

/-- `SupernovaMetric.run` up to the final packaging: `none` models the early
return of line 113 (no observation in the valid rest-frame filter set);
otherwise the final loop state.  Line 111 `dataSlice = dataSlice[goodFilters]`
makes a copy, which line 114 then sorts by `expMJD`. -/
def snRunState (p : SNParams) (dataSlice : List SNVisit) : Option SNLoopState :=
  let ds := dataSlice.filter (fun v => (snValidFilters p).contains v.filt)
  if ds.isEmpty then none
  else
    let ds := npSortBy SNVisit.expMJD ds
    let tmin := npMin (ds.map SNVisit.expMJD)
    let time := ds.map (fun v => (v.expMJD - tmin) / (1 + p.redshift))
    some ((snCands p time).foldl (snStep p ds time) ⟨0, -1, 0, [], [], []⟩)

/-- `SupernovaMetric.run` (lines 91-170). -/
def snRun (p : SNParams) (dataSlice : List SNVisit) : SNOut :=
  match snRunState p dataSlice with
  | none => .tup p.badval p.badval p.badval
  | some st => .dict st.result st.maxGap st.nobs

/-- The observation index ranges `[left, right)` of the accepted sequences. -/
def snAcceptedRanges (p : SNParams) (dataSlice : List SNVisit) : List (ℕ × ℕ) :=
  match snRunState p dataSlice with
  | none => []
  | some st => st.accepted

/-- `SupernovaMetric.reduceMedianMaxGap` (lines 172-177): `data['maxGap']`
with the `nan` median (empty array) mapped to `badval`.  On the bare 3-tuple
returned by line 113, `data['maxGap']` raises `TypeError` (tuple indices must
be integers), modelled as `none`. -/
def reduceMedianMaxGap (p : SNParams) (data : SNOut) : Option ℚ :=
  match data with
  | .tup _ _ _ => none
  | .dict _ g _ =>
    some (match npMedian g with
          | none => p.badval
          | some m => m)

/-- `SupernovaMetric.reduceNsequences` (lines 179-181); `TypeError` on the
bare tuple, modelled as `none`. -/
def reduceNsequences (data : SNOut) : Option ℚ :=
  match data with
  | .tup _ _ _ => none
  | .dict r _ _ => some (r : ℚ)

/-- `SupernovaMetric.reduceMedianNobs` (lines 183-188); `TypeError` on the
bare tuple, modelled as `none`. -/
def reduceMedianNobs (p : SNParams) (data : SNOut) : Option ℚ :=
  match data with
  | .tup _ _ _ => none
  | .dict _ _ n =>
    some (match npMedian (n.map (fun x => (x : ℚ))) with
          | none => p.badval
          | some m => m)

/-! ## UniformityMetric (`cadenceMetrics.py`, lines 227-271) -/

/-- `UniformityMetric.run` (lines 244-271) on the `expMJD` column of a slice.
A single observation returns `1` (line 265).  On an empty slice `np.max` of an
empty deviation array raises `ValueError`, modelled as `none`. -/
def uniformity_run (surveyLength : ℚ) (times : List ℚ) : Option ℚ :=
  if times.length = 1 then some 1
  else if times.isEmpty then none
  else
    let dates := npSortQ (times.map (fun x => (x - npMin times) / (surveyLength * 365.25)))
    let ncum := (List.range dates.length).map
      (fun i => ((i + 1 : ℕ) : ℚ) / (dates.length : ℚ))
    some (npMax (List.zipWith (fun c d => |c - d - dates.getD 1 0|) ncum dates))

/-- The spec's KS-style deviation statistic over an already rescaled, sorted
list `d`: the maximum over 1-indexed positions `i` of
`|i/N - d[i-1] - d[1]|`, `d[1]` being the second-smallest rescaled value. -/
def ksStatSpec (d : List ℚ) : ℚ :=
  npMax ((List.range d.length).map
    (fun i => |((i + 1 : ℕ) : ℚ) / (d.length : ℚ) - d.getD i 0 - d.getD 1 0|))

/-- The spec's description of the uniformity computation: rescale by
`(time - min) / (surveyLength * 365.25)`, sort, and take the deviation
statistic. -/
def uniformitySpec (surveyLength : ℚ) (times : List ℚ) : ℚ :=
  ksStatSpec (npSortQ (times.map (fun x => (x - npMin times) / (surveyLength * 365.25))))

/-! ## RapidRevisitMetric (`cadenceMetrics.py`, lines 273-332) -/

/-- Lines 296-298 of `RapidRevisitMetric.__init__`: a configured
`minNvisits <= 1` is raised to 2. -/
def rapidRevisitMinN (m : ℤ) : ℤ := if m ≤ 1 then 2 else m

/-- Lines 319-321: the consecutive-visit gaps falling inside the inclusive
interval `[dTmin, dTmax]` (`dtimes[good]`). -/
def goodGaps (dTmin dTmax : ℚ) (times : List ℚ) : List ℚ :=
  (npDiff (npSortQ times)).filter (fun x => decide (dTmin ≤ x) && decide (x ≤ dTmax))

/-- `RapidRevisitMetric.run` (lines 300-332), with `minN` the already
normalized `minNvisits`. -/
def rapidRevisit_run (minN : ℤ) (dTmin dTmax badval : ℚ) (times : List ℚ) : ℚ :=
  let good := goodGaps dTmin dTmax times
  if (good.length : ℤ) < minN then badval
  else
    let d := npSortQ good
    let dr := d.map (fun x => (x - npMin d) / (dTmax - dTmin))
    let ncum := (List.range dr.length).map
      (fun i => ((i + 1 : ℕ) : ℚ) / (dr.length : ℚ))
    npMax (List.zipWith (fun c x => |c - x - dr.getD 1 0|) ncum dr)

/-! ## NRevisitsMetric (`cadenceMetrics.py`, lines 334-378) -/

/-- Line 354 of `NRevisitsMetric.__init__`: `dT` is given in minutes and
converted to days. -/
def nRevisitsDT (dT : ℚ) : ℚ := dT / 60 / 24

/-- `NRevisitsMetric.run` (lines 359-378).  When `normed` is set and the slice
is empty, line 377 divides by `float(0)` and raises `ZeroDivisionError`,
modelled as `none`. -/
def nRevisits_run (dT : ℚ) (normed : Bool) (times : List ℚ) : Option ℚ :=
  let dtimes := npDiff (npSortQ times)
  let nFastRevisits := dtimes.countP (fun x => decide (x ≤ dT))
  if normed then
    if times.length = 0 then none
    else some ((nFastRevisits : ℚ) / (times.length : ℚ))
  else some (nFastRevisits : ℚ)

/-! ## Intra-night, inter-night and average gap metrics
(`cadenceMetrics.py`, lines 380-513) -/

/-- A row of the slices consumed by the gap metrics:
columns `expMJD` and `night`. -/
structure NVisit where
  expMJD : ℚ
  night : ℤ
deriving DecidableEq

/-- `IntraNightGapsMetric.run` (lines 400-424) with the default reducer
`np.median`: gaps between consecutive same-night observations, in hours. -/
def intraNight_run (badval : ℚ) (slice : List NVisit) : Option ℚ :=
  let ds := npSortBy NVisit.expMJD slice
  let dt := npDiff (ds.map NVisit.expMJD)
  let dn := npDiffZ (ds.map NVisit.night)
  let good := ((dt.zip dn).filter (fun x => decide (x.2 = 0))).map (fun x => x.1)
  if good.isEmpty then some badval
  else (npMedian good).map (fun m => m * 24)

/-- `InterNightGapsMetric.run` (lines 446-470) with the default reducer
`np.median`: gaps between the last observation of one night and the first of
the next, in days. -/
def interNight_run (badval : ℚ) (slice : List NVisit) : Option ℚ :=
  let ds := npSortBy NVisit.expMJD slice
  let nights := ds.map NVisit.night
  let times := ds.map NVisit.expMJD
  let unights := npUniqueZ nights
  if unights.length < 2 then some badval
  else
    let firstOfNight := unights.map (ssLeftZ nights)
    let lastOfNight := unights.map (fun u => ssRightZ nights u - 1)
    npMedian (List.zipWith
      (fun fi la => times.getD fi 0 - times.getD la 0)
      firstOfNight.tail lastOfNight.dropLast)

/-- `AveGapMetric.run` (lines 492-513) with the default reducer `np.median`:
the median of all consecutive time gaps, in hours.  There is no small-slice
guard in the source: with fewer than 2 visits the reducer sees an empty array
and the result is `nan`, modelled as `none`. -/
def aveGap_run (slice : List NVisit) : Option ℚ :=
  let ds := npSortBy NVisit.expMJD slice
  (npMedian (npDiff (ds.map NVisit.expMJD))).map (fun m => m * 24)

/-! ## Caller-visible state of the slice after `run`

numpy's `dataSlice.sort(order=…)` reorders the caller's array in place, while
`np.sort`, boolean-mask indexing and arithmetic on a column produce fresh
arrays.  For each embedded metric, `…_postSlice` is the caller's array after
the call returns. -/

/-- `IntraNightGapsMetric.run` line 415 sorts the caller's array in place. -/
def intraNight_postSlice (slice : List NVisit) : List NVisit :=
  npSortBy NVisit.expMJD slice

/-- `InterNightGapsMetric.run` line 460 sorts the caller's array in place. -/
def interNight_postSlice (slice : List NVisit) : List NVisit :=
  npSortBy NVisit.expMJD slice

/-- `AveGapMetric.run` line 510 sorts the caller's array in place. -/
def aveGap_postSlice (slice : List NVisit) : List NVisit :=
  npSortBy NVisit.expMJD slice

/-- `SupernovaMetric.run` line 111 rebinds `dataSlice` to the copy produced by
boolean-mask indexing; the in-place sort of line 114 acts on that copy, so the
caller's array is untouched. -/
def supernova_postSlice (_p : SNParams) (slice : List SNVisit) : List SNVisit :=
  slice

/-- `UniformityMetric.run` sorts only the derived `dates` array (line 268);
the caller's array is untouched. -/
def uniformity_postSlice (slice : List ℚ) : List ℚ := slice

/-- `RapidRevisitMetric.run` uses the copying `np.sort` (lines 319, 326);
the caller's array is untouched. -/
def rapidRevisit_postSlice (slice : List ℚ) : List ℚ := slice

/-- `NRevisitsMetric.run` uses the copying `np.sort` (line 374);
the caller's array is untouched. -/
def nRevisits_postSlice (slice : List ℚ) : List ℚ := slice

/-! ## AstroPrecMetric (`astroPrecMetric.py`) -/

/-- A row of the slice consumed by `AstroPrecMetric.run`:
columns `finSeeing` and `5sigma_modified`. -/
structure APVisit where
  finSeeing : ℝ
  m5 : ℝ

/-- `m52snr` (lines 4-8): `snr = 5. * 10. ** (-0.4 * (m - m5))`. -/
noncomputable def m52snr (m m5 : ℝ) : ℝ :=
  5 * (10 : ℝ) ^ (-(0.4 : ℝ) * (m - m5))

/-- `AstroPrecMetric.run` (lines 23-27): per-visit precision
`seeing / snr`, quadrature with the atmospheric floor `atm_limit`
(`** 0.5`), mean over the slice, arcsec to mas. -/
noncomputable def astroPrec_run (mag atm : ℝ) (slice : List APVisit) : ℝ :=
  let res := slice.map (fun v => v.finSeeing / m52snr mag v.m5)
  let res2 := res.map (fun x => (x ^ 2 + atm ^ 2) ^ (0.5 : ℝ))
  (res2.sum / (slice.length : ℝ)) * 1000

/-! ## Concrete configurations and slices used in the theorems -/

/-- The source's default `SupernovaMetric` configuration (lines 55-60):
redshift 0, window [-20, 60], `Nbetween` 7, `Nfilt` 2, `Tless` -5, `Nless` 1,
`Tmore` 30, `Nmore` 1, `peakGap` 15, `singleDepthLimit` 23, resolution 5,
`uniqueBlocks` off, `badval` -666. -/
def snPdef : SNParams := ⟨0, -20, 60, 7, 2, -5, 1, 30, 1, 15, 23, 5, false, -666⟩

/-- A permissive `SupernovaMetric` configuration with `uniqueBlocks` on:
redshift 0, window [0, 10], `Nbetween` 0, `Nfilt` 0, `Tless` -100, `Nless` -1,
`Tmore` 100, `Nmore` -1, `peakGap` 1000, `singleDepthLimit` 23, resolution 1,
`badval` -666.  Every window holding at least two observations qualifies. -/
def snP1 : SNParams := ⟨0, 0, 10, 0, 0, -100, -1, 100, -1, 1000, 23, 1, true, -666⟩

/-- Four `u`-band visits: two at days 0-1 and two at days 30-31. -/
def snSlice1 : List SNVisit := [⟨0, .u, 30⟩, ⟨1, .u, 30⟩, ⟨30, .u, 30⟩, ⟨31, .u, 30⟩]

end SimsMaf

namespace SimsMaf

/-! ## Theorems -/

/-- C1: REFUTED on the code.  With `uniqueBlocks` set, `SupernovaMetric.run`
is claimed to skip every candidate epoch whose window start lies before the
end of a previously accepted window, making accepted observation ranges
`[left, right)` pairwise non-overlapping.  The skip test of line 137 compares
the `enumerate` counter `i` with `right_side = right[i]`, an index into the
observation array, so on `snSlice1` it accepts ten sequences, nine of which
have the identical range `[2, 4)`: the accepted ranges are not pairwise
non-overlapping. -/
theorem snRun_uniqueBlocks_accepts_overlapping_ranges :
    snP1.uniqueBlocks = true ∧
    snAcceptedRanges snP1 snSlice1 =
      [(0, 2), (2, 4), (2, 4), (2, 4), (2, 4), (2, 4), (2, 4), (2, 4),
       (2, 4), (2, 4)] ∧
    ¬ List.Pairwise (fun a b : ℕ × ℕ => a.2 ≤ b.1 ∨ b.2 ≤ a.1)
        (snAcceptedRanges snP1 snSlice1) := by
  with_unfolding_all decide

/-- C3: REFUTED on the code (the spec states the intended behaviour).
`AveGapMetric.run` applies the median reducer to an empty difference array on
a slice with fewer than 2 visits, yielding `nan` (modelled `none`), and
`NRevisitsMetric.run` with `normed` set divides by `float(0)` on an empty
slice, raising `ZeroDivisionError` (modelled `none`); neither produces the
configured bad-value. -/
theorem aveGap_nRevisits_insufficient_data_not_badval :
    aveGap_run [⟨5, 0⟩] = none ∧
    aveGap_run [] = none ∧
    nRevisits_run (nRevisitsDT 30) true [] = none := by
  with_unfolding_all decide

set_option maxRecDepth 8000 in
/-- C4: REFUTED on the code (the spec states the intended behaviour).  On a
slice with no observation in the valid rest-frame filter set (`y` is cut at
redshift 0), `SupernovaMetric.run` returns the bare tuple of line 113, and
each reducer then indexes a tuple with a string key, raising `TypeError`
(modelled `none`) instead of returning the configured bad-value. -/
theorem snReducers_on_allbad_tuple_raise :
    snRun snPdef [⟨0, .y, 30⟩] = .tup (-666) (-666) (-666) ∧
    reduceMedianMaxGap snPdef (snRun snPdef [⟨0, .y, 30⟩]) = none ∧
    reduceNsequences (snRun snPdef [⟨0, .y, 30⟩]) = none ∧
    reduceMedianNobs snPdef (snRun snPdef [⟨0, .y, 30⟩]) = none := by
  with_unfolding_all decide

/-- C10: when no observation survives the rest-frame filter cut,
`SupernovaMetric.run` returns the bare 3-tuple `(badval, badval, badval)`
(line 113); in every other case it returns the keyed dict of line 170, the
shape the three reducers index by key. -/
theorem snRun_shape_mismatch :
    (∀ p slice, slice.filter (fun v => (snValidFilters p).contains v.filt) = [] →
        snRun p slice = .tup p.badval p.badval p.badval) ∧
    (∀ p slice, slice.filter (fun v => (snValidFilters p).contains v.filt) ≠ [] →
        ∃ r g n, snRun p slice = .dict r g n) := by
  constructor
  · intro p slice h
    have h' : (slice.filter (fun v => (snValidFilters p).contains v.filt)).isEmpty = true := by
      rw [h]
      rfl
    simp only [snRun, snRunState]
    rw [if_pos h']
  · intro p slice h
    have h' : ¬ ((slice.filter (fun v => (snValidFilters p).contains v.filt)).isEmpty = true) := by
      simpa [List.isEmpty_iff] using h
    simp only [snRun, snRunState]
    rw [if_neg h']
    exact ⟨_, _, _, rfl⟩

/-- C10 witness: the two shapes at concrete slices. -/
theorem snRun_shape_mismatch_witness :
    snRun snPdef [⟨0, .y, 30⟩] = .tup snPdef.badval snPdef.badval snPdef.badval ∧
    ∃ r g n, snRun snPdef [⟨0, .u, 30⟩] = .dict r g n :=
  ⟨snRun_shape_mismatch.1 snPdef _ (by with_unfolding_all decide),
   snRun_shape_mismatch.2 snPdef _ (by with_unfolding_all decide)⟩

/-- A `zipWith` against a list built by mapping over `List.range` is the same
map with the second list read off by position. -/
theorem zipWith_map_range (f : ℚ → ℚ → ℚ) (g : ℕ → ℚ) (d : List ℚ) :
    List.zipWith f ((List.range d.length).map g) d
      = (List.range d.length).map (fun i => f (g i) (d.getD i 0)) := by
  apply List.ext_getElem
  · simp
  · intro i h1 h2
    have hi : i < d.length := by simpa using h2
    simp [List.getElem_zipWith, List.getElem_map, List.getElem_range,
          List.getD_eq_getElem _ _ hi, List.getElem?_eq_getElem hi]

/-- C2: `UniformityMetric.run` returns exactly `1` on a single-observation
slice, and on a slice of `N ≥ 2` observations it returns the maximum over
sorted 1-indexed positions `i` of `|i/N - d[i-1] - d[1]|`, where `d` is the
sorted list of times rescaled by `(time - min) / (surveyLength * 365.25)` and
`d[1]` is the second-smallest rescaled time. -/
theorem uniformity_run_eq_spec :
    (∀ (surveyLength t : ℚ), uniformity_run surveyLength [t] = some 1) ∧
    (∀ (surveyLength : ℚ) (times : List ℚ), 2 ≤ times.length →
      uniformity_run surveyLength times = some (uniformitySpec surveyLength times)) := by
  constructor
  · intro L t
    rfl
  · intro L times h
    have h1 : ¬ times.length = 1 := by omega
    have h2 : ¬ (times.isEmpty = true) := by
      cases times with
      | nil => simp at h
      | cons a l => simp
    unfold uniformity_run uniformitySpec ksStatSpec
    rw [if_neg h1, if_neg h2]
    exact congrArg (fun x => some (npMax x)) (zipWith_map_range _ _ _)

/-- C2 witness: both branches at concrete slices. -/
theorem uniformity_run_eq_spec_witness :
    uniformity_run 10 [7] = some 1 ∧
    uniformity_run 10 [0, 1] = some (uniformitySpec 10 [0, 1]) :=
  ⟨uniformity_run_eq_spec.1 10 7,
   uniformity_run_eq_spec.2 10 [0, 1] (by decide)⟩

/-- C5: `RapidRevisitMetric` raises a configured `minNvisits ≤ 1` to 2 at
construction; `run` returns the bad-value whenever fewer than `minNvisits`
consecutive-visit gaps lie in the inclusive interval `[dTmin, dTmax]`, and
otherwise returns the KS-style uniformity statistic of the in-range gaps
rescaled by `(gap - min gap) / (dTmax - dTmin)`. -/
theorem rapidRevisit_run_badval_and_spec :
    (∀ m : ℤ, m ≤ 1 → rapidRevisitMinN m = 2) ∧
    (∀ (minN : ℤ) (dTmin dTmax badval : ℚ) (times : List ℚ),
      ((goodGaps dTmin dTmax times).length : ℤ) < rapidRevisitMinN minN →
        rapidRevisit_run (rapidRevisitMinN minN) dTmin dTmax badval times = badval) ∧
    (∀ (minN : ℤ) (dTmin dTmax badval : ℚ) (times : List ℚ),
      rapidRevisitMinN minN ≤ ((goodGaps dTmin dTmax times).length : ℤ) →
        rapidRevisit_run (rapidRevisitMinN minN) dTmin dTmax badval times
          = ksStatSpec ((npSortQ (goodGaps dTmin dTmax times)).map
              (fun x => (x - npMin (npSortQ (goodGaps dTmin dTmax times)))
                        / (dTmax - dTmin)))) := by
  refine ⟨fun m h => if_pos h, fun minN dTmin dTmax badval times h => ?_,
          fun minN dTmin dTmax badval times h => ?_⟩
  · unfold rapidRevisit_run
    rw [if_pos h]
  · unfold rapidRevisit_run ksStatSpec
    rw [if_neg (not_lt.2 h)]
    exact congrArg npMax (zipWith_map_range _ _ _)

/-- C5 witness: the bad-value branch and the statistic branch at concrete
inputs (configured `minNvisits = 0`, normalized to 2). -/
theorem rapidRevisit_run_badval_and_spec_witness :
    rapidRevisitMinN 0 = 2 ∧
    rapidRevisit_run (rapidRevisitMinN 0) 0 (1/2) (-666) [0, 1, 5] = -666 ∧
    rapidRevisit_run (rapidRevisitMinN 0) 0 1 (-666) [0, 1/100, 2/100, 5]
      = ksStatSpec ((npSortQ (goodGaps 0 1 [0, 1/100, 2/100, 5])).map
          (fun x => (x - npMin (npSortQ (goodGaps 0 1 [0, 1/100, 2/100, 5])))
                    / (1 - 0))) :=
  ⟨rapidRevisit_run_badval_and_spec.1 0 (by decide),
   rapidRevisit_run_badval_and_spec.2.1 0 0 (1/2) (-666) [0, 1, 5]
     (by with_unfolding_all decide),
   rapidRevisit_run_badval_and_spec.2.2 0 0 1 (-666) [0, 1/100, 2/100, 5]
     (by with_unfolding_all decide)⟩

/-- C7: `NRevisitsMetric.run` counts consecutive-visit gaps `≤ dT` (`dT`
converted from minutes to days at construction), dividing by the visit count
when `normed` is set; for times `[0, 1, 2, 3]` days and `dT = 1440` minutes
the unnormed result is 3 and the normed result is `3/4`. -/
theorem nRevisits_run_count_and_normed :
    (∀ (dT : ℚ) (times : List ℚ), nRevisits_run (nRevisitsDT dT) false times
        = some (((npDiff (npSortQ times)).countP
            (fun x => decide (x ≤ nRevisitsDT dT)) : ℕ) : ℚ)) ∧
    (∀ (dT : ℚ) (times : List ℚ), times ≠ [] →
      nRevisits_run (nRevisitsDT dT) true times
        = some ((((npDiff (npSortQ times)).countP
            (fun x => decide (x ≤ nRevisitsDT dT)) : ℕ) : ℚ) / (times.length : ℚ))) ∧
    nRevisits_run (nRevisitsDT 1440) false [0, 1, 2, 3] = some 3 ∧
    nRevisits_run (nRevisitsDT 1440) true [0, 1, 2, 3] = some (3 / 4) := by
  refine ⟨fun dT times => rfl, fun dT times h => ?_, ?_, ?_⟩
  · unfold nRevisits_run
    rw [if_pos rfl, if_neg (by simpa [List.length_eq_zero] using h)]
  · with_unfolding_all decide
  · with_unfolding_all decide

/-- C7 witness: the normed branch at a concrete nonempty slice. -/
theorem nRevisits_run_count_and_normed_witness :
    nRevisits_run (nRevisitsDT 1440) true [0, 1, 2, 3]
      = some ((((npDiff (npSortQ [0, 1, 2, 3])).countP
          (fun x => decide (x ≤ nRevisitsDT 1440)) : ℕ) : ℚ) / (([0, 1, 2, 3] : List ℚ).length : ℚ)) :=
  nRevisits_run_count_and_normed.2.1 1440 [0, 1, 2, 3] (by decide)

/-- C6: `InterNightGapsMetric.run` returns the bad-value on every slice with
fewer than 2 distinct night values; on a slice of two distinct nights with one
observation each, at times `t0 < t1` (nights ascending with time, as the data
model requires of the night column), the default median reducer gives
`t1 - t0` days. -/
theorem interNight_run_badval_and_two_nights :
    (∀ (badval : ℚ) (slice : List NVisit),
      (slice.map NVisit.night).dedup.length < 2 →
        interNight_run badval slice = some badval) ∧
    (∀ (badval t0 t1 : ℚ) (n0 n1 : ℤ), t0 < t1 → n0 < n1 →
        interNight_run badval [⟨t0, n0⟩, ⟨t1, n1⟩] = some (t1 - t0)) := by
  constructor
  · intro badval slice h
    have hlen : (npUniqueZ ((npSortBy NVisit.expMJD slice).map NVisit.night)).length
        = (slice.map NVisit.night).dedup.length := by
      unfold npUniqueZ npSortBy
      exact (((List.perm_insertionSort _ _).trans
        ((List.perm_insertionSort _ _).map _)).dedup).length_eq
    unfold interNight_run
    rw [if_pos (by rw [hlen]; exact h)]
  · intro badval t0 t1 n0 n1 ht hn
    simp only [interNight_run, npSortBy, npUniqueZ, ssLeftZ, ssRightZ, npMedian,
      npSortQ, List.insertionSort, List.orderedInsert]
    rw [if_pos ht.le]
    simp [ssLeftZ, ssRightZ, List.dedup_cons_of_not_mem, hn, ht, hn.ne,
      ht.not_le, hn.not_le, hn.not_lt, ht.le, hn.le, lt_irrefl,
      List.countP_cons, List.countP_nil]

/-- C6 witness: both branches at concrete slices. -/
theorem interNight_run_badval_and_two_nights_witness :
    interNight_run (-666) [⟨0, 5⟩] = some (-666) ∧
    interNight_run (-666) [⟨0, 0⟩, ⟨3, 1⟩] = some (3 - 0) :=
  ⟨interNight_run_badval_and_two_nights.1 (-666) [⟨0, 5⟩] (by decide),
   interNight_run_badval_and_two_nights.2 (-666) 0 3 0 1 (by norm_num) (by decide)⟩

/-- C8 counterexample: `IntraNightGapsMetric.run` sorts the caller's
structured array in place (line 415), so an out-of-order slice is observably
reordered by the call, contradicting the claim that every metric leaves the
caller's slice element order unchanged. -/
theorem intraNight_postSlice_reorders :
    intraNight_postSlice [⟨1, 0⟩, ⟨0, 0⟩] ≠ [⟨1, 0⟩, ⟨0, 0⟩] := by
  with_unfolding_all decide

/-- C8 (amended): the in-place sorting metrics (intra-night, inter-night,
average gap) leave the caller's slice a permutation of its former self —
same elements, possibly reordered into time order — while the metrics that
only touch fresh arrays (`SupernovaMetric`, which sorts a filtered copy, and
the uniformity, rapid-revisit and revisit-count metrics) leave the caller's
slice entirely unchanged. -/
theorem postSlice_perm_or_id :
    (∀ slice, List.Perm (intraNight_postSlice slice) slice) ∧
    (∀ slice, List.Perm (interNight_postSlice slice) slice) ∧
    (∀ slice, List.Perm (aveGap_postSlice slice) slice) ∧
    (∀ p slice, supernova_postSlice p slice = slice) ∧
    (∀ slice, uniformity_postSlice slice = slice) ∧
    (∀ slice, rapidRevisit_postSlice slice = slice) ∧
    (∀ slice, nRevisits_postSlice slice = slice) :=
  ⟨fun _ => List.perm_insertionSort _ _, fun _ => List.perm_insertionSort _ _,
   fun _ => List.perm_insertionSort _ _, fun _ _ => rfl, fun _ => rfl,
   fun _ => rfl, fun _ => rfl⟩

/-- `AstroPrecMetric.run` as 1000 times the mean of the per-visit quadrature
precisions, with `** 0.5` rewritten as a square root. -/
theorem astroPrec_run_eq_mean (mag atm : ℝ) (slice : List APVisit) :
    astroPrec_run mag atm slice
      = 1000 * ((slice.map (fun v =>
          Real.sqrt ((v.finSeeing / m52snr mag v.m5) ^ 2 + atm ^ 2))).sum
        / (slice.length : ℝ)) := by
  simp only [astroPrec_run]
  rw [List.map_map]
  have hc : ((fun x : ℝ => (x ^ 2 + atm ^ 2) ^ (0.5 : ℝ)) ∘
        (fun v : APVisit => v.finSeeing / m52snr mag v.m5))
      = fun v : APVisit =>
          Real.sqrt ((v.finSeeing / m52snr mag v.m5) ^ 2 + atm ^ 2) := by
    funext v
    simp only [Function.comp]
    rw [Real.sqrt_eq_rpow]
    norm_num
  rw [hc]
  ring

/-- C9: `AstroPrecMetric.run` is the mean over visits of
`1000 * sqrt((seeing / (5 * 10^(-0.4 (mag - m5))))^2 + atm_limit^2)`; hence it
is invariant under permutation of the slice, and on a slice with constant
seeing and depth it equals the single-visit closed-form value. -/
theorem astroPrec_run_mean_perm_const :
    (∀ (mag atm : ℝ) (slice : List APVisit),
      astroPrec_run mag atm slice
        = (slice.map (fun v =>
            1000 * Real.sqrt ((v.finSeeing / m52snr mag v.m5) ^ 2 + atm ^ 2))).sum
          / (slice.length : ℝ)) ∧
    (∀ (mag atm : ℝ) (l₁ l₂ : List APVisit), List.Perm l₁ l₂ →
      astroPrec_run mag atm l₁ = astroPrec_run mag atm l₂) ∧
    (∀ (mag atm s m : ℝ) (slice : List APVisit), slice ≠ [] →
      (∀ v ∈ slice, v = ⟨s, m⟩) →
      astroPrec_run mag atm slice
        = 1000 * Real.sqrt ((s / m52snr mag m) ^ 2 + atm ^ 2)) := by
  refine ⟨fun mag atm slice => ?_, fun mag atm l₁ l₂ hp => ?_,
          fun mag atm s m slice hne hall => ?_⟩
  · rw [astroPrec_run_eq_mean, List.sum_map_mul_left, mul_div_assoc]
  · rw [astroPrec_run_eq_mean, astroPrec_run_eq_mean, hp.length_eq,
        (hp.map _).sum_eq]
  · rw [astroPrec_run_eq_mean]
    have hrep : slice.map (fun v =>
          Real.sqrt ((v.finSeeing / m52snr mag v.m5) ^ 2 + atm ^ 2))
        = List.replicate slice.length
            (Real.sqrt ((s / m52snr mag m) ^ 2 + atm ^ 2)) := by
      apply List.eq_replicate_iff.mpr
      refine ⟨by simp, ?_⟩
      intro b hb
      rcases List.mem_map.1 hb with ⟨v, hv, rfl⟩
      rw [hall v hv]
    have hn : (slice.length : ℝ) ≠ 0 := by
      have : slice.length ≠ 0 := by simpa [List.length_eq_zero] using hne
      exact_mod_cast this
    rw [hrep, List.sum_replicate, nsmul_eq_mul]
    field_simp

/-- C9 witness: permutation invariance on a concrete two-visit slice, and the
closed form on a concrete constant slice. -/
theorem astroPrec_run_mean_perm_const_witness :
    astroPrec_run 20 (1/100) [⟨1, 2⟩, ⟨3, 4⟩]
      = astroPrec_run 20 (1/100) [⟨3, 4⟩, ⟨1, 2⟩] ∧
    astroPrec_run 20 (1/100) [⟨2, 25⟩, ⟨2, 25⟩]
      = 1000 * Real.sqrt ((2 / m52snr 20 25) ^ 2 + (1/100) ^ 2) :=
  ⟨astroPrec_run_mean_perm_const.2.1 20 (1/100) _ _
     (List.Perm.swap (⟨3, 4⟩ : APVisit) (⟨1, 2⟩ : APVisit) []),
   astroPrec_run_mean_perm_const.2.2 20 (1/100) 2 25 [⟨2, 25⟩, ⟨2, 25⟩]
     (by simp) (by simp)⟩

end SimsMaf
